import Mathlib

/-!
Verification of the STT-Local-API service (`src/main.py`): a shallow
embedding of the request admission and processing pipeline of the
`/transcribe` endpoint, the upload ingestion loop, the model-readiness
wait, the POST host gate, and the transcription-log reader, together
with theorems settling the specification claims about them.

External collaborators (the Whisper model, ffmpeg, SQLite, the JSON
codec, the byte stream of the upload) are represented by oracle inputs:
an `Env` record fixes the outcome of every effectful call a single
request performs, so one `Env` value corresponds to one execution path
of the handler.
-/

namespace STT

/-! ### Configuration constants (src/main.py lines 17-42) -/

/-- `ALLOWED_SUFFIXES` (main.py line 29). -/
def ALLOWED_SUFFIXES : List String :=
  [".wav", ".mp3", ".m4a", ".flac", ".ogg", ".aac", ".webm"]

/-- `ALLOWED_CONTENT_TYPES` (main.py lines 30-42). -/
def ALLOWED_CONTENT_TYPES : List String :=
  ["audio/wav", "audio/x-wav", "audio/mpeg", "audio/mp3", "audio/mp4",
   "audio/x-m4a", "audio/flac", "audio/ogg", "audio/aac", "audio/webm",
   "application/octet-stream"]

/-- The initial value handed to `threading.BoundedSemaphore` at main.py
line 49: `max(1, MAX_CONCURRENT_TRANSCRIBES)`.  `MAX_CONCURRENT_TRANSCRIBES`
is an arbitrary `int` read from the environment, hence an `Int` here. -/
def semaphoreInitialValue (maxConcurrentTranscribes : Int) : Int :=
  max 1 maxConcurrentTranscribes

/-! ### String helpers modelling the Python operations used on names

These are defined over the underlying character lists so that every one
of them evaluates by kernel reduction. -/

/-- Python `str.lower()` over the ASCII range (the characters the
compared-against constants contain). -/
def strLower (s : String) : String :=
  String.mk (s.data.map Char.toLower)

/-- The default whitespace set of Python `str.strip()`. -/
def isPySpace (c : Char) : Bool :=
  c = ' ' || c = '\t' || c = '\n' || c = '\r' || c = '\x0b' || c = '\x0c'

/-- Python `str.strip()`: removes leading and trailing whitespace. -/
def pyStrip (s : String) : String :=
  String.mk (((s.data.dropWhile isPySpace).reverse.dropWhile isPySpace).reverse)

/-- `s.split(";")[0]` for the one-character separator `";"`: everything
before the first semicolon. -/
def firstSemicolonPiece (s : String) : String :=
  String.mk (s.data.takeWhile (fun c => c ≠ ';'))

/-- Python `" ".join(texts)`. -/
def joinSpace (texts : List String) : String :=
  String.mk (List.intercalate [' '] (texts.map String.data))

/-- Splits a character list at every `'/'`, like Python `str.split("/")`:
the result is a non-empty list of separator-free pieces. -/
def splitOnSlash : List Char → List (List Char)
  | [] => [[]]
  | c :: rest =>
    match splitOnSlash rest with
    | [] => [[]]
    | p :: ps => if c = '/' then [] :: p :: ps else (c :: p) :: ps

/-- `pathlib.Path(p).name` for POSIX paths: the final path component,
with empty and `"."` components dropped (pathlib normalises those away);
`""` when no component remains. -/
def pathName (p : String) : String :=
  let parts := (splitOnSlash p.data).filter (fun q => q ≠ [] ∧ q ≠ ['.'])
  String.mk ((parts.getLast?).getD [])

/-- `os.path.splitext(name)[1]` for a separator-free name: the substring
from the last `'.'` on, except that a name whose characters before that
dot are all dots (e.g. `".bashrc"`, `"..txt"`) has no extension. -/
def splitextExt (name : String) : String :=
  let cs := name.data
  let dotIdxs := (List.range cs.length).filter (fun i => cs.get? i = some '.')
  match dotIdxs.getLast? with
  | none => ""
  | some d =>
    if (List.range d).any (fun j => cs.get? j ≠ some '.') then
      String.mk (cs.drop d)
    else ""

/-- `Path(file.filename or "uploaded").name` (main.py line 352): a `None`
or empty declared filename falls back to `"uploaded"`, and only the final
path component of the declared name is kept. -/
def effectiveFilename (raw : Option String) : String :=
  let base :=
    match raw with
    | none => "uploaded"
    | some s => if s = "" then "uploaded" else s
  pathName base

/-- `(file.content_type or "").split(";")[0].strip().lower()`
(main.py line 353). -/
def normalizeContentType (raw : Option String) : String :=
  strLower (pyStrip (firstSemicolonPiece (raw.getD "")))

/-! ### Upload ingestion: `_save_upload_with_limit` (main.py lines 225-242)

The incoming byte stream is modelled by the list of the sizes of the
chunks `await upload.read(chunk_size)` returns; a `0` entry is the empty
read that ends the stream (`if not chunk: break`). -/

/-- `chunk_size = 1024 * 1024` (main.py line 227). -/
def chunk_size : Nat := 1024 * 1024

/-- Result the caller of the ingestion loop sees: `.ok total` on success,
or `.error status` for the raised `HTTPException` (413 too large, 400
empty payload). -/
inductive SaveResult where
  | ok (total : Nat)
  | error (status : Nat)
  deriving Repr, DecidableEq

/-- Outcome of the ingestion loop: the caller-visible result together
with how many bytes were written to the destination file before the
loop stopped. -/
structure SaveOut where
  result : SaveResult
  written : Nat
  deriving Repr, DecidableEq

/-- The `while True` loop of `_save_upload_with_limit`, plus the trailing
empty-payload check: `total` and `written` are the running total and the
bytes written so far.  The running total is checked right after each
chunk is counted and *before* the chunk is written, so an over-limit
chunk never reaches the disk. -/
def saveLoop (maxBytes : Nat) : List Nat → Nat → Nat → SaveOut
  | [], total, written =>
    { result := if total = 0 then .error 400 else .ok total, written := written }
  | c :: rest, total, written =>
    if c = 0 then
      { result := if total = 0 then .error 400 else .ok total, written := written }
    else
      let total' := total + c
      if total' > maxBytes then
        { result := .error 413, written := written }
      else
        saveLoop maxBytes rest total' (written + c)

/-- `_save_upload_with_limit(upload, destination_path, max_bytes)`:
streams the upload to disk under the byte cap. -/
def save_upload_with_limit (chunks : List Nat) (maxBytes : Nat) : SaveOut :=
  saveLoop maxBytes chunks 0 0

/-! ### The admission semaphore (main.py line 49)

`transcribe_semaphore` is a `threading.BoundedSemaphore`.  Its state is
its available count plus, as a ghost field, the number of slots
currently held; the bounded release of `threading.BoundedSemaphore`
raises `ValueError` (modelled as `none`) when the count would pass the
initial value. -/

structure SemState where
  available : Nat
  holding : Nat
  deriving Repr, DecidableEq

/-- One semaphore operation issued by some request: the non-blocking
`acquire(blocking=False)` at main.py line 356, or the `release()` at
line 435. -/
inductive SemEvent where
  | tryAcquire
  | release
  deriving Repr, DecidableEq

/-- Semantics of one semaphore operation for a semaphore created with
initial value `cap`.  A failed `tryAcquire` returns immediately leaving
the state unchanged (no queuing); `release` past the initial value is
the `ValueError` of `BoundedSemaphore` (`none`). -/
def semStep (cap : Nat) (s : SemState) : SemEvent → Option SemState
  | .tryAcquire =>
    if 0 < s.available then some ⟨s.available - 1, s.holding + 1⟩ else some s
  | .release =>
    if cap ≤ s.available then none else some ⟨s.available + 1, s.holding - 1⟩

/-- Runs a sequence of semaphore operations from a state. -/
def runSemEvents (cap : Nat) : List SemEvent → SemState → Option SemState
  | [], s => some s
  | e :: rest, s =>
    match semStep cap s e with
    | none => none
    | some s' => runSemEvents cap rest s'

/-! ### Model readiness: `ensure_model_loaded` (main.py lines 307-319)

The shared state read by the polling loop is modelled as a snapshot
sequence `obs : Nat → Bool × Bool`, where `obs k = (model is not None,
model_loading)` as observed at the k-th poll.  The function only reads
this state; it never starts a load. -/

/-- The `while model is None and model_loading and waited < 15` loop.
Returns the final value of `model is not None` together with the final
value of `waited` (= the number of 1-second sleeps performed). -/
def ensureLoop (obs : Nat → Bool × Bool) (waited : Nat) : Bool × Nat :=
  let s := obs waited
  if s.1 = false ∧ s.2 = true ∧ waited < 15 then
    ensureLoop obs (waited + 1)
  else
    (s.1, waited)
termination_by 15 - waited

/-- `ensure_model_loaded()`: returns immediately when the model is
already loaded, otherwise waits through `ensureLoop` starting at
`waited = 0`. -/
def ensure_model_loaded (obs : Nat → Bool × Bool) : Bool × Nat :=
  if (obs 0).1 then (true, 0) else ensureLoop obs 0

/-! ### The `/transcribe` handler (main.py lines 342-446) -/

/-- One segment emitted by the model.  `start`/`end` are the float
timestamps; no arithmetic is ever performed on them (`float(s.start)`
is a coercion of an already-numeric value), so they are carried as
opaque integer values here. -/
structure Segment where
  start : Int
  «end» : Int
  text : String
  deriving Repr, DecidableEq

/-- The `info` object returned by `model.transcribe`, as far as the
handler inspects it: `hasattr(info, "language")`, `isinstance(info,
dict)` with an optional `"language"` key, or anything else. -/
inductive InfoVal where
  | withLang (lang : String)
  | dict (lang : Option String)
  | other
  deriving Repr, DecidableEq

/-- Outcome of the ffmpeg subprocess call (main.py lines 396-401). -/
inductive FfmpegOutcome where
  | ok
  | timeout
  | failed
  deriving Repr, DecidableEq

/-- Outcome of `model.transcribe` and the eager consumption of its
segment generator: either the emitted segments plus the info object, or
an arbitrary exception whose class name is `excClass`. -/
inductive ModelOutcome where
  | ok (segs : List Segment) (info : InfoVal)
  | crash (excClass : String)
  deriving Repr, DecidableEq

/-- The JSON body of a 200 response (`TranscriptionResponse`). -/
structure Payload where
  text : String
  language : String
  segments : List Segment
  deriving Repr, DecidableEq

/-- The oracle fixing every effect of one `/transcribe` request:
the semaphore's available count at entry, the result of
`ensure_model_loaded`, the declared filename and content type, the
upload stream's chunk sizes, the configured upload cap, and the
outcomes of ffmpeg, the model call, and the SQLite insert. -/
structure Env where
  semAvailable : Nat
  modelReady : Bool
  filename0 : Option String
  contentType0 : Option String
  chunks : List Nat
  maxUploadBytes : Nat
  ffmpeg : FfmpegOutcome
  modelRun : ModelOutcome
  logsEnabled : Bool
  logPersistFails : Bool

/-- What the `try` body of the handler produced, before the `finally`
block runs: the HTTP status, the client-visible `detail` string (empty
for 200), the 200 payload, the `error_detail` variable passed to the
outcome logger, whether ingestion was reached, the bytes written to the
temp file, and the final `uploaded_bytes` variable. -/
structure BodyOut where
  status : Nat
  clientDetail : String
  payload : Option Payload
  errorDetail : String
  ingestStarted : Bool
  bytesWritten : Nat
  uploadedBytes : Nat
  deriving Repr, DecidableEq

/-- `full_text = " ".join(texts).strip()` (main.py line 411): the raw
segment texts joined with single spaces, then the joined whole trimmed. -/
def fullText (segs : List Segment) : String :=
  pyStrip (joinSpace (segs.map Segment.text))

/-- The language extraction of main.py lines 412-417: an explicit
`language` attribute wins, then a dict lookup defaulting to
`"unknown"`, else `"unknown"`. -/
def languageOf : InfoVal → String
  | .withLang l => l
  | .dict d => d.getD "unknown"
  | .other => "unknown"

/-- Helper building a `BodyOut` for a raised `HTTPException`: the
client sees `detail`, and the `except HTTPException` arm stores the
same string in `error_detail` (main.py lines 422-425). -/
def httpError (status : Nat) (detail : String) (ingestStarted : Bool)
    (bytesWritten uploadedBytes : Nat) : BodyOut :=
  { status := status, clientDetail := detail, payload := none,
    errorDetail := detail, ingestStarted := ingestStarted,
    bytesWritten := bytesWritten, uploadedBytes := uploadedBytes }

/-- The `try` body of the `/transcribe` handler (main.py lines 355-430),
given that the semaphore acquire returned `acquired`: model-readiness
gate, extension and content-type validation, bounded ingestion, ffmpeg
normalisation, transcription, and the two `except` arms mapping a raised
`HTTPException` to its own status/detail and any other exception to a
500 whose client detail is fixed while the exception class name goes
only into `error_detail`. -/
def transcribeBody (acquired : Bool) (modelReady : Bool)
    (filename contentType : String) (chunks : List Nat)
    (maxUploadBytes : Nat) (ffmpeg : FfmpegOutcome)
    (modelRun : ModelOutcome) : BodyOut :=
  if acquired = false then
    httpError 429 "Servicio ocupado. Reintente en unos segundos." false 0 0
  else if modelReady = false then
    httpError 503 "Modelo no cargado todavia. Reintente en unos minutos o convierta/instale el modelo requerido." false 0 0
  else
    let suffix := strLower (splitextExt filename)
    if ALLOWED_SUFFIXES.contains suffix = false then
      httpError 400 "Formato de audio no soportado" false 0 0
    else if contentType ≠ "" ∧ ALLOWED_CONTENT_TYPES.contains contentType = false then
      httpError 400 ("Content-Type no permitido: " ++ contentType) false 0 0
    else
      let save := save_upload_with_limit chunks maxUploadBytes
      match save.result with
      | .error s =>
        -- `s` is 413 ("too large") or 400 ("empty"), the only two
        -- statuses `_save_upload_with_limit` raises.
        httpError s
          (if s = 413 then
            "Archivo demasiado grande. Maximo permitido: " ++ toString maxUploadBytes ++ " bytes"
          else "Archivo vacio")
          true save.written 0
      | .ok total =>
        match ffmpeg with
        | .timeout =>
          httpError 504 "Tiempo de procesamiento excedido en ffmpeg" true save.written total
        | .failed =>
          httpError 422 "No se pudo procesar el audio con ffmpeg" true save.written total
        | .ok =>
          match modelRun with
          | .crash excClass =>
            { status := 500, clientDetail := "Error interno del servidor",
              payload := none,
              errorDetail := "Error interno no manejado: " ++ excClass,
              ingestStarted := true, bytesWritten := save.written,
              uploadedBytes := total }
          | .ok segs info =>
            { status := 200, clientDetail := "",
              payload := some { text := fullText segs,
                                language := languageOf info,
                                segments := segs },
              errorDetail := "", ingestStarted := true,
              bytesWritten := save.written, uploadedBytes := total }

/-- The full observable outcome of one `/transcribe` request, after the
`finally` block: the response data, the semaphore accounting (`acquired`,
the number of `release()` calls performed, and the semaphore's available
count once the request is done), and the outcome-logging data. -/
structure RunResult where
  status : Nat
  clientDetail : String
  payload : Option Payload
  acquired : Bool
  releases : Nat
  semAfter : Nat
  ingestStarted : Bool
  bytesWritten : Nat
  uploadedBytes : Nat
  loggedErrorDetail : String
  logRecorded : Bool
  deriving Repr, DecidableEq

/-- The `/transcribe` handler (main.py lines 342-446): the non-blocking
semaphore acquire, the `try` body, and the `finally` block that releases
the slot exactly when it was acquired and records the outcome (the
record attempt succeeding only when SQLite logging is enabled and the
insert does not fail; a failing insert is swallowed). -/
def runTranscribe (env : Env) : RunResult :=
  let acquired := decide (0 < env.semAvailable)
  let semHeld := env.semAvailable - (if acquired then 1 else 0)
  let body := transcribeBody acquired env.modelReady
    (effectiveFilename env.filename0) (normalizeContentType env.contentType0)
    env.chunks env.maxUploadBytes env.ffmpeg env.modelRun
  let releases := if acquired then 1 else 0
  { status := body.status, clientDetail := body.clientDetail,
    payload := body.payload, acquired := acquired, releases := releases,
    semAfter := semHeld + releases, ingestStarted := body.ingestStarted,
    bytesWritten := body.bytesWritten, uploadedBytes := body.uploadedBytes,
    loggedErrorDetail := body.errorDetail,
    logRecorded := env.logsEnabled && !env.logPersistFails }

/-! ### Outcome recording: `_truncate_for_log`, `_log_transcribe_event`
(main.py lines 75-78 and 109-165) -/

/-- `_truncate_for_log(value, max_chars)` (main.py lines 75-78). -/
def truncate_for_log (value : String) (maxChars : Nat) : String :=
  if value.data.length ≤ maxChars then value
  else String.mk (value.data.take maxChars) ++ "...[truncated]"

/-- The SQLite `INSERT` inside `_log_transcribe_event`: the one
operation that can fail.  The oracle bit `persistFails` decides whether
it raises (`.error`) or commits (`.ok`). -/
def sqliteInsert (persistFails : Bool) : Except String Unit :=
  if persistFails then .error "sqlite3 error" else .ok ()

/-- `_log_transcribe_event(...)` (main.py lines 109-165): a no-op when
SQLite logging is disabled; otherwise serialises and truncates the
response payload (`dumps` stands for `json.dumps`) and the error
detail, and attempts the insert, catching any exception (`except
Exception`) so that failure is only logged internally.  Returns whether
a row was actually recorded; the function itself never raises. -/
def log_transcribe_event (enabled persistFails : Bool)
    (dumps : Payload → String) (maxLogChars : Nat)
    (payload : Option Payload) (errorDetail : String) : Bool :=
  if enabled = false then false
  else
    let _response_json :=
      match payload with
      | none => ""
      | some p => truncate_for_log (dumps p) maxLogChars
    let _safe_error_detail := truncate_for_log errorDetail maxLogChars
    match sqliteInsert persistFails with
    | .ok _ => true
    | .error _ => false

/-! ### Log reading: `_read_recent_transcribe_logs` and
`GET /transcribe/logs` (main.py lines 168-222 and 332-339)

The `transcribe_logs` table is modelled as the list of its rows in
insertion order (ids strictly increasing, as `AUTOINCREMENT`
guarantees); `SELECT ... ORDER BY id DESC LIMIT n` is then
`reverse` + `take n`.  `json.loads` is a collaborator, passed in as
`parse` into some JSON value type `J` (`none` = `json.JSONDecodeError`). -/

/-- One stored row of the `transcribe_logs` table (schema at main.py
lines 88-105); `ok` is the stored 0/1 integer. -/
structure LogRow where
  id : Nat
  created_at : String
  client_host : String
  user_agent : String
  filename : String
  content_type : String
  file_size_bytes : Nat
  status_code : Nat
  ok : Nat
  latency_ms : Nat
  response_json : String
  error_detail : String
  deriving Repr, DecidableEq

/-- One entry of the `logs` array returned by the endpoint: the stored
row with `ok` as a bool and `response` re-parsed — `none` when the
stored JSON text is empty, `.inl` a structured value when it parses,
`.inr` the raw stored string when it does not. -/
structure LogOut (J : Type) where
  id : Nat
  created_at : String
  client_host : String
  user_agent : String
  filename : String
  content_type : String
  file_size_bytes : Nat
  status_code : Nat
  ok : Bool
  latency_ms : Nat
  response : Option (J ⊕ String)
  error_detail : String

/-- The per-row output assembly of `_read_recent_transcribe_logs`
(main.py lines 197-221). -/
def rowToOut (parse : String → Option J) (r : LogRow) : LogOut J :=
  { id := r.id, created_at := r.created_at, client_host := r.client_host,
    user_agent := r.user_agent, filename := r.filename,
    content_type := r.content_type, file_size_bytes := r.file_size_bytes,
    status_code := r.status_code, ok := decide (r.ok ≠ 0),
    latency_ms := r.latency_ms,
    response :=
      if r.response_json = "" then none
      else
        match parse r.response_json with
        | some v => some (.inl v)
        | none => some (.inr r.response_json),
    error_detail := r.error_detail }

/-- `_read_recent_transcribe_logs(limit)` (main.py lines 168-222):
empty when logging is disabled; otherwise clamps the limit with
`safe_limit = max(1, min(limit, 100))` and returns that many most
recent rows, newest first. -/
def read_recent_transcribe_logs (enabled : Bool) (parse : String → Option J)
    (store : List LogRow) (limit : Int) : List (LogOut J) :=
  if enabled = false then []
  else
    let safe_limit := max 1 (min limit 100)
    (store.reverse.take safe_limit.toNat).map (rowToOut parse)

/-- The body of a 200 response of `GET /transcribe/logs`. -/
structure LogsResponse (J : Type) where
  enabled : Bool
  count : Nat
  logs : List (LogOut J)

/-- `GET /transcribe/logs` (main.py lines 332-339).  The handler's
`limit` parameter is declared `Query(default=10, ge=1, le=100)`:
FastAPI substitutes 10 when the query parameter is absent and rejects
an out-of-range value with a 422 validation response before the handler
body runs; an in-range value reaches the handler, which answers 200
with `{enabled, count, logs}`. -/
def transcribe_logs (enabled : Bool) (parse : String → Option J)
    (store : List LogRow) (limitParam : Option Int) :
    Nat × Option (LogsResponse J) :=
  let limit := limitParam.getD 10
  if limit < 1 ∨ 100 < limit then (422, none)
  else
    let logs := read_recent_transcribe_logs enabled parse store limit
    (200, some { enabled := enabled, count := logs.length, logs := logs })

/-! ### POST host gate: `restrict_post_to_localhost`
(main.py lines 245-259) -/

/-- `_is_allowed_post_host(host)` (main.py lines 245-248). -/
def is_allowed_post_host (allowedPostHosts : List String) (host : String) : Bool :=
  if allowedPostHosts.contains "*" then true
  else allowedPostHosts.contains host

/-- What the middleware produces: a 403 block (the downstream
application is never called), or the downstream result. -/
inductive MwOutcome (A : Type) where
  | blocked (status : Nat) (detail : String)
  | passed (inner : A)
  deriving Repr, DecidableEq

/-- The `restrict_post_to_localhost` middleware (main.py lines
251-259): `client` is `request.client` (`none` when absent, giving
host `""`), `path` is the request path — unused, the gate looks only at
the method and the client host.  `inner` stands for the result of
`await call_next(request)`. -/
def restrict_post_to_localhost (allowedPostHosts : List String)
    (method : String) (client : Option String) (path : String)
    (inner : A) : MwOutcome A :=
  let _ := path
  let clientHost := client.getD ""
  if method = "POST" ∧ is_allowed_post_host allowedPostHosts clientHost = false then
    .blocked 403 "Host no permitido para POST. Ajusta ALLOWED_POST_HOSTS para habilitarlo."
  else
    .passed inner

/-! ### Derived predicates and concrete fixtures -/

/-- All the guards of the `/transcribe` pipeline that precede ingestion
passed: slot acquired, model ready, extension allowed, and content type
empty or allowed. -/
def validationPassed (env : Env) : Prop :=
  0 < env.semAvailable ∧ env.modelReady = true ∧
  ALLOWED_SUFFIXES.contains (strLower (splitextExt (effectiveFilename env.filename0))) = true ∧
  (normalizeContentType env.contentType0 = "" ∨
    ALLOWED_CONTENT_TYPES.contains (normalizeContentType env.contentType0) = true)

instance (env : Env) : Decidable (validationPassed env) := by
  unfold validationPassed; infer_instance

/-- Stated from the specification claim for comparison with `fullText`:
each segment text trimmed individually, then joined with single spaces.
(`fullText`, from the code, joins first and trims only the joined
whole.) -/
def claimedTrimJoin (segs : List Segment) : String :=
  joinSpace (segs.map (fun s => pyStrip s.text))

/-- Segments of the concrete happy-path fixture: the first text carries
surrounding spaces. -/
def segsOk : List Segment := [⟨0, 1, " a "⟩, ⟨1, 2, "b"⟩]

/-- A request environment on which every pipeline stage succeeds. -/
def envOk : Env :=
  { semAvailable := 1, modelReady := true, filename0 := some "x.wav",
    contentType0 := some "audio/wav", chunks := [5, 0], maxUploadBytes := 10,
    ffmpeg := .ok, modelRun := .ok segsOk (.withLang "es"),
    logsEnabled := true, logPersistFails := false }

/-- The payload `runTranscribe envOk` produces. -/
def pOk : Payload := { text := "a  b", language := "es", segments := segsOk }

/-- A concrete stand-in for `json.loads` over a one-value JSON type:
only the text `"ok"` parses. -/
def parseW : String → Option Unit := fun s => if s = "ok" then some () else none

/-- A stored log row whose response text parses under `parseW`. -/
def rowW1 : LogRow :=
  { id := 1, created_at := "2026-01-01T00:00:00+00:00",
    client_host := "127.0.0.1", user_agent := "ua", filename := "x.wav",
    content_type := "audio/wav", file_size_bytes := 5, status_code := 200,
    ok := 1, latency_ms := 12, response_json := "ok", error_detail := "" }

/-- A later stored log row whose response text does not parse. -/
def rowW2 : LogRow :=
  { rowW1 with
    id := 2, status_code := 500, ok := 0,
    response_json := "not json", error_detail := "boom" }

/-- The happy-path environment with no declared filename. -/
def envNoFilename : Env := { envOk with filename0 := none }

/-- An admitted request with no declared filename while the model is
still not ready. -/
def envNotReadyNoFilename : Env :=
  { envOk with
    modelReady := false, filename0 := none }

/-! ## Theorems -/

/-- In the ingestion loop the running total equals the bytes written
(the over-limit chunk is counted but never written), so the bytes on
disk never pass `maxBytes`. -/
theorem saveLoop_written_le (m : Nat) :
    ∀ (chunks : List Nat) (t : Nat), t ≤ m → (saveLoop m chunks t t).written ≤ m := by
  intro chunks
  induction chunks with
  | nil => intro t ht; simpa [saveLoop] using ht
  | cons c rest ih =>
    intro t ht
    by_cases hc : c = 0
    · simpa [saveLoop, hc] using ht
    · by_cases hover : t + c > m
      · simpa [saveLoop, hc, hover] using ht
      · simpa [saveLoop, hc, hover] using ih (t + c) (by omega)

/-- On success the reported total equals the bytes written. -/
theorem saveLoop_ok_written (m : Nat) :
    ∀ (chunks : List Nat) (t u : Nat),
      (saveLoop m chunks t t).result = .ok u → (saveLoop m chunks t t).written = u := by
  intro chunks
  induction chunks with
  | nil =>
    intro t u h
    by_cases ht : t = 0 <;> simp [saveLoop, ht] at h <;> simp [saveLoop, ht, h]
  | cons c rest ih =>
    intro t u h
    by_cases hc : c = 0
    · by_cases ht : t = 0 <;> simp [saveLoop, hc, ht] at h <;> simp [saveLoop, hc, ht, h]
    · by_cases hover : t + c > m
      · simp [saveLoop, hc, hover] at h
      · simp only [saveLoop, if_neg hc, if_neg hover] at h ⊢
        exact ih (t + c) u h

/-- C3: upload ingestion reads in fixed 1 MiB chunks, checks the
running total after every chunk, writes at most `maxBytes` plus one
chunk size to disk before aborting (in fact never more than `maxBytes`:
the chunk that overflows the cap is rejected before being written), on
exceeding `maxBytes` raises the 413 condition without writing further
data, and on success returns the exact byte count written. -/
theorem C3_ingestion_bounded :
    chunk_size = 1024 * 1024 ∧
    (∀ (chunks : List Nat) (m : Nat),
      (save_upload_with_limit chunks m).written ≤ m + chunk_size) ∧
    (∀ (chunks : List Nat) (m : Nat),
      (save_upload_with_limit chunks m).result = .error 413 →
      (save_upload_with_limit chunks m).written ≤ m) ∧
    (∀ (chunks : List Nat) (m t : Nat),
      (save_upload_with_limit chunks m).result = .ok t →
      (save_upload_with_limit chunks m).written = t) := by
  refine ⟨rfl, ?_, ?_, ?_⟩
  · intro chunks m
    exact le_trans (saveLoop_written_le m chunks 0 (Nat.zero_le m))
      (Nat.le_add_right m chunk_size)
  · intro chunks m _
    exact saveLoop_written_le m chunks 0 (Nat.zero_le m)
  · intro chunks m t h
    exact saveLoop_ok_written m chunks 0 t h

/-- C3 witness: a stream that exceeds a 10-byte cap aborts having
written at most 10 bytes, and a 5-byte stream reports exactly the 5
bytes written. -/
theorem C3_witness :
    (save_upload_with_limit [7, 7] 10).written ≤ 10 ∧
    (save_upload_with_limit [5, 0] 10).written = 5 :=
  ⟨C3_ingestion_bounded.2.2.1 [7, 7] 10 (by decide),
   C3_ingestion_bounded.2.2.2 [5, 0] 10 5 (by decide)⟩

/-- C9: the admission semaphore's initial value is at least 1 for every
configured `MAX_CONCURRENT_TRANSCRIBES`, including zero and negative
values, so the configuration cannot reduce admission capacity to
nothing. -/
theorem C9_capacity_at_least_one (maxConcurrentTranscribes : Int) :
    1 ≤ semaphoreInitialValue maxConcurrentTranscribes :=
  le_max_left 1 maxConcurrentTranscribes

/-- A semaphore step preserves `available + holding = cap`. -/
theorem semStep_sum {cap : Nat} {s s2 : SemState} {e : SemEvent}
    (hsum : s.available + s.holding = cap) (hstep : semStep cap s e = some s2) :
    s2.available + s2.holding = cap := by
  cases e with
  | tryAcquire =>
    by_cases h : 0 < s.available
    · simp [semStep, h] at hstep
      subst hstep; simp; omega
    · simp [semStep, h] at hstep
      subst hstep; exact hsum
  | release =>
    by_cases h : cap ≤ s.available
    · simp [semStep, h] at hstep
    · simp [semStep, h] at hstep
      subst hstep; simp; omega

/-- A run of semaphore operations that does not raise preserves
`available + holding = cap`. -/
theorem runSemEvents_sum (cap : Nat) :
    ∀ (tr : List SemEvent) (s s' : SemState),
      s.available + s.holding = cap → runSemEvents cap tr s = some s' →
      s'.available + s'.holding = cap := by
  intro tr
  induction tr with
  | nil =>
    intro s s' h he
    simp [runSemEvents] at he; subst he; exact h
  | cons e rest ih =>
    intro s s' h he
    simp only [runSemEvents] at he
    cases hstep : semStep cap s e with
    | none => rw [hstep] at he; simp at he
    | some s2 =>
      rw [hstep] at he; simp at he
      exact ih s2 s' (semStep_sum h hstep) he

/-- C1: on every exit path of `/transcribe` — success, any
`HTTPException`, or an unexpected crash — the slot is released exactly
once iff it was acquired (`releases = acquired ? 1 : 0`, and the
semaphore's available count is restored to its entry value), and along
every sequence of semaphore operations starting from the freshly
constructed semaphore the number of held slots never exceeds the
configured capacity. -/
theorem C1_slot_release_exactly_once :
    (∀ env : Env,
      ((runTranscribe env).acquired = true ↔ 0 < env.semAvailable) ∧
      (runTranscribe env).releases =
        (if (runTranscribe env).acquired then 1 else 0) ∧
      (runTranscribe env).semAfter = env.semAvailable) ∧
    (∀ (cap : Nat) (tr : List SemEvent) (s' : SemState),
      runSemEvents cap tr ⟨cap, 0⟩ = some s' → s'.holding ≤ cap) := by
  constructor
  · intro env
    by_cases h : 0 < env.semAvailable <;>
      refine ⟨?_, ?_, ?_⟩ <;> simp [runTranscribe, h] <;> omega
  · intro cap tr s' h
    have hs := runSemEvents_sum cap tr ⟨cap, 0⟩ s' (by simp) h
    omega

/-- C1 witness: on the happy-path environment the semaphore count is
restored, and after acquire–release–acquire on a 1-slot semaphore the
held count is within capacity. -/
theorem C1_witness :
    (runTranscribe envOk).semAfter = envOk.semAvailable ∧
    SemState.holding ⟨0, 1⟩ ≤ 1 :=
  ⟨(C1_slot_release_exactly_once.1 envOk).2.2,
   C1_slot_release_exactly_once.2 1 [.tryAcquire, .release, .tryAcquire] ⟨0, 1⟩
     (by decide)⟩

/-- The polling loop never leaves the `waited` counter above 15 when it
starts at or below 15. -/
theorem ensureLoop_waited_le (obs : Nat → Bool × Bool) :
    ∀ (k w : Nat), 15 - w ≤ k → w ≤ 15 → (ensureLoop obs w).2 ≤ 15 := by
  intro k
  induction k with
  | zero =>
    intro w hk hw
    rw [ensureLoop]
    rw [if_neg (fun hcond => absurd hcond.2.2 (by omega))]
    exact hw
  | succ k ih =>
    intro w hk hw
    rw [ensureLoop]
    by_cases hcond : (obs w).1 = false ∧ (obs w).2 = true ∧ w < 15
    · rw [if_pos hcond]
      exact ih (w + 1) (by omega) (by omega)
    · rw [if_neg hcond]
      exact hw

/-- The result of the polling loop is the model-loaded flag observed at
the final poll. -/
theorem ensureLoop_fst (obs : Nat → Bool × Bool) :
    ∀ (k w : Nat), 15 - w ≤ k →
      (ensureLoop obs w).1 = (obs (ensureLoop obs w).2).1 := by
  intro k
  induction k with
  | zero =>
    intro w hk
    rw [ensureLoop]
    rw [if_neg (fun hcond => absurd hcond.2.2 (by omega))]
  | succ k ih =>
    intro w hk
    rw [ensureLoop]
    by_cases hcond : (obs w).1 = false ∧ (obs w).2 = true ∧ w < 15
    · rw [if_pos hcond]
      exact ih (w + 1) (by omega)
    · rw [if_neg hcond]

/-- C6: `ensure_model_loaded` returns `True` immediately (no sleep) when
the model is already loaded; otherwise it sleeps at most 15 times — so
it terminates within the 15-second budget on every interleaving of the
shared `model`/`model_loading` state — and its result is exactly the
model-loaded flag observed at its final poll.  The function only reads
the shared state (`obs` is its only access to it), so it never triggers
a load. -/
theorem C6_bounded_readiness_wait (obs : Nat → Bool × Bool) :
    ((obs 0).1 = true → ensure_model_loaded obs = (true, 0)) ∧
    (ensure_model_loaded obs).2 ≤ 15 ∧
    (ensure_model_loaded obs).1 = (obs (ensure_model_loaded obs).2).1 := by
  refine ⟨?_, ?_, ?_⟩
  · intro h
    simp [ensure_model_loaded, h]
  · by_cases h : (obs 0).1
    · simp [ensure_model_loaded, h]
    · simp only [ensure_model_loaded, if_neg h]
      exact ensureLoop_waited_le obs 15 0 (by omega) (by omega)
  · by_cases h : (obs 0).1
    · simp [ensure_model_loaded, h]
    · simp only [ensure_model_loaded, if_neg h]
      exact ensureLoop_fst obs 15 0 (by omega)

/-- C6 witness: with the model loaded at the first observation the call
returns `True` after zero sleeps, and with the model never loading the
sleep count stays within 15. -/
theorem C6_witness :
    ensure_model_loaded (fun _ => (true, true)) = (true, 0) ∧
    (ensure_model_loaded (fun _ => (false, true))).2 ≤ 15 :=
  ⟨(C6_bounded_readiness_wait (fun _ => (true, true))).1 rfl,
   (C6_bounded_readiness_wait (fun _ => (false, true))).2.1⟩

/-- C7: a POST whose client host is neither in the allowlist nor
covered by a `"*"` entry is answered 403 by the middleware — the
downstream pipeline (`call_next`) is never invoked, whatever the path —
and a `"*"` entry disables the check for every host. -/
theorem C7_post_host_gate {A : Type} (allowedPostHosts : List String)
    (method : String) (client : Option String) (path : String) (inner : A) :
    (method = "POST" → allowedPostHosts.contains "*" = false →
      allowedPostHosts.contains (client.getD "") = false →
      restrict_post_to_localhost allowedPostHosts method client path inner =
        .blocked 403
          "Host no permitido para POST. Ajusta ALLOWED_POST_HOSTS para habilitarlo.") ∧
    (allowedPostHosts.contains "*" = true →
      restrict_post_to_localhost allowedPostHosts method client path inner =
        .passed inner) ∧
    (∀ path' : String,
      restrict_post_to_localhost allowedPostHosts method client path inner =
        restrict_post_to_localhost allowedPostHosts method client path' inner) := by
  refine ⟨?_, ?_, ?_⟩
  · intro hm hstar hh
    simp at hstar hh
    simp [restrict_post_to_localhost, is_allowed_post_host, hm, hstar, hh]
  · intro hstar
    simp at hstar
    simp [restrict_post_to_localhost, is_allowed_post_host, hstar]
  · intro _
    rfl

/-- C7 witness: with the default allowlist a POST from `10.0.0.5` is
blocked with 403, and with a `"*"` allowlist it passes through. -/
theorem C7_witness :
    restrict_post_to_localhost ["127.0.0.1", "::1"] "POST" (some "10.0.0.5")
        "/transcribe" (0 : Nat) =
      .blocked 403
        "Host no permitido para POST. Ajusta ALLOWED_POST_HOSTS para habilitarlo." ∧
    restrict_post_to_localhost ["*"] "POST" (some "10.0.0.5") "/transcribe"
        (0 : Nat) = .passed 0 :=
  ⟨(C7_post_host_gate ["127.0.0.1", "::1"] "POST" (some "10.0.0.5")
      "/transcribe" 0).1 rfl (by decide) (by decide),
   (C7_post_host_gate ["*"] "POST" (some "10.0.0.5") "/transcribe" 0).2.1
     (by decide)⟩

/-- C8: the response of `/transcribe` (status, client detail, payload,
and even the error detail handed to the logger) is identical whether or
not persisting the log row fails, and `_log_transcribe_event` itself
never propagates the failure: it returns normally, reporting a recorded
row exactly when logging is enabled and the insert succeeded. -/
theorem C8_log_failure_never_masks_response (env : Env) (b b' : Bool)
    (dumps : Payload → String) (maxLogChars : Nat)
    (payload : Option Payload) (errorDetail : String) :
    (runTranscribe { env with logPersistFails := b }).status =
      (runTranscribe { env with logPersistFails := b' }).status ∧
    (runTranscribe { env with logPersistFails := b }).clientDetail =
      (runTranscribe { env with logPersistFails := b' }).clientDetail ∧
    (runTranscribe { env with logPersistFails := b }).payload =
      (runTranscribe { env with logPersistFails := b' }).payload ∧
    (runTranscribe { env with logPersistFails := b }).loggedErrorDetail =
      (runTranscribe { env with logPersistFails := b' }).loggedErrorDetail ∧
    log_transcribe_event env.logsEnabled b dumps maxLogChars payload errorDetail =
      (env.logsEnabled && !b) := by
  refine ⟨rfl, rfl, rfl, rfl, ?_⟩
  cases hE : env.logsEnabled <;> cases b <;>
    simp [log_transcribe_event, sqliteInsert]

/-- C2: each failure condition of the `/transcribe` pipeline maps to
exactly its status code — admission denied 429, model not ready 503,
disallowed extension 400, disallowed content type 400, empty upload
400, oversized upload 413, encoder timeout 504, encoder non-zero exit
422 — and any other exception maps to 500 with the exception's class
name placed only in the server-side error detail while the client
receives the fixed message `"Error interno del servidor"`. -/
theorem C2_error_status_taxonomy (env : Env) :
    (env.semAvailable = 0 → (runTranscribe env).status = 429) ∧
    (0 < env.semAvailable → env.modelReady = false →
      (runTranscribe env).status = 503) ∧
    (0 < env.semAvailable → env.modelReady = true →
      ALLOWED_SUFFIXES.contains
        (strLower (splitextExt (effectiveFilename env.filename0))) = false →
      (runTranscribe env).status = 400) ∧
    (0 < env.semAvailable → env.modelReady = true →
      ALLOWED_SUFFIXES.contains
        (strLower (splitextExt (effectiveFilename env.filename0))) = true →
      normalizeContentType env.contentType0 ≠ "" →
      ALLOWED_CONTENT_TYPES.contains (normalizeContentType env.contentType0) = false →
      (runTranscribe env).status = 400) ∧
    (validationPassed env →
      (save_upload_with_limit env.chunks env.maxUploadBytes).result = .error 400 →
      (runTranscribe env).status = 400) ∧
    (validationPassed env →
      (save_upload_with_limit env.chunks env.maxUploadBytes).result = .error 413 →
      (runTranscribe env).status = 413) ∧
    (∀ t : Nat, validationPassed env →
      (save_upload_with_limit env.chunks env.maxUploadBytes).result = .ok t →
      env.ffmpeg = .timeout → (runTranscribe env).status = 504) ∧
    (∀ t : Nat, validationPassed env →
      (save_upload_with_limit env.chunks env.maxUploadBytes).result = .ok t →
      env.ffmpeg = .failed → (runTranscribe env).status = 422) ∧
    (∀ (t : Nat) (excClass : String), validationPassed env →
      (save_upload_with_limit env.chunks env.maxUploadBytes).result = .ok t →
      env.ffmpeg = .ok → env.modelRun = .crash excClass →
      (runTranscribe env).status = 500 ∧
      (runTranscribe env).clientDetail = "Error interno del servidor" ∧
      (runTranscribe env).loggedErrorDetail =
        "Error interno no manejado: " ++ excClass ∧
      (runTranscribe env).payload = none) := by
  refine ⟨?_, ?_, ?_, ?_, ?_, ?_, ?_, ?_, ?_⟩
  · intro h
    simp [runTranscribe, transcribeBody, httpError, h]
  · intro h1 h2
    simp [runTranscribe, transcribeBody, httpError, h1, h2]
  · intro h1 h2 h3
    simp at h3
    simp [runTranscribe, transcribeBody, httpError, h1, h2, h3]
  · intro h1 h2 h3 h4 h5
    simp at h3 h5
    simp [runTranscribe, transcribeBody, httpError, h1, h2, h3, h4, h5]
  · rintro ⟨h1, h2, h3, h4⟩ hsave
    simp at h3
    rcases h4 with h4 | h4 <;> [skip; simp at h4] <;>
      simp [runTranscribe, transcribeBody, httpError, h1, h2, h3, h4, hsave]
  · rintro ⟨h1, h2, h3, h4⟩ hsave
    simp at h3
    rcases h4 with h4 | h4 <;> [skip; simp at h4] <;>
      simp [runTranscribe, transcribeBody, httpError, h1, h2, h3, h4, hsave]
  · rintro t ⟨h1, h2, h3, h4⟩ hsave hff
    simp at h3
    rcases h4 with h4 | h4 <;> [skip; simp at h4] <;>
      simp [runTranscribe, transcribeBody, httpError, h1, h2, h3, h4, hsave, hff]
  · rintro t ⟨h1, h2, h3, h4⟩ hsave hff
    simp at h3
    rcases h4 with h4 | h4 <;> [skip; simp at h4] <;>
      simp [runTranscribe, transcribeBody, httpError, h1, h2, h3, h4, hsave, hff]
  · rintro t excClass ⟨h1, h2, h3, h4⟩ hsave hff hcrash
    simp at h3
    rcases h4 with h4 | h4 <;> [skip; simp at h4] <;>
      simp [runTranscribe, transcribeBody, httpError, h1, h2, h3, h4, hsave, hff,
        hcrash]

/-- C2 witness: each failure condition exercised on a concrete variant
of the happy-path environment yields its status code. -/
theorem C2_witness :
    (runTranscribe { envOk with semAvailable := 0 }).status = 429 ∧
    (runTranscribe { envOk with modelReady := false }).status = 503 ∧
    (runTranscribe { envOk with filename0 := some "x.pdf" }).status = 400 ∧
    (runTranscribe { envOk with contentType0 := some "text/html" }).status = 400 ∧
    (runTranscribe { envOk with chunks := [] }).status = 400 ∧
    (runTranscribe { envOk with chunks := [11] }).status = 413 ∧
    (runTranscribe { envOk with ffmpeg := .timeout }).status = 504 ∧
    (runTranscribe { envOk with ffmpeg := .failed }).status = 422 ∧
    (runTranscribe { envOk with modelRun := .crash "ValueError" }).status = 500 :=
  ⟨(C2_error_status_taxonomy _).1 rfl,
   (C2_error_status_taxonomy _).2.1 (by decide) rfl,
   (C2_error_status_taxonomy _).2.2.1 (by decide) rfl (by decide),
   (C2_error_status_taxonomy _).2.2.2.1 (by decide) rfl (by decide) (by decide)
     (by decide),
   (C2_error_status_taxonomy _).2.2.2.2.1 (by decide) (by decide),
   (C2_error_status_taxonomy _).2.2.2.2.2.1 (by decide) (by decide),
   (C2_error_status_taxonomy _).2.2.2.2.2.2.1 5 (by decide) (by decide) rfl,
   (C2_error_status_taxonomy _).2.2.2.2.2.2.2.1 5 (by decide) (by decide) rfl,
   ((C2_error_status_taxonomy _).2.2.2.2.2.2.2.2 5 "ValueError" (by decide)
     (by decide) rfl rfl).1⟩

/-- C4 (amended): for every successful transcription the result's
`text` is the raw segment texts joined with single spaces with only the
joined whole trimmed (segments are not trimmed individually), the
`segments` list is the model's emission sequence unchanged, and the
language comes from an explicit language attribute when present, else
from a mapping lookup defaulting to `"unknown"`, else is `"unknown"`. -/
theorem C4_result_assembly (env : Env) (segs : List Segment)
    (info : InfoVal) (p : Payload)
    (hrun : env.modelRun = .ok segs info)
    (hp : (runTranscribe env).payload = some p) :
    p.text = pyStrip (joinSpace (segs.map Segment.text)) ∧
    p.segments = segs ∧
    (∀ l, info = .withLang l → p.language = l) ∧
    (∀ d, info = .dict d → p.language = d.getD "unknown") ∧
    (info = .other → p.language = "unknown") := by
  simp only [runTranscribe] at hp
  unfold transcribeBody at hp
  rw [hrun] at hp
  dsimp only at hp
  repeat' split at hp
  all_goals try (exfalso; simp [httpError] at hp; done)
  all_goals simp only [httpError, Option.some.injEq] at hp
  all_goals subst hp
  all_goals
    exact ⟨rfl, rfl, fun l hl => by subst hl; rfl,
      fun d hd => by subst hd; rfl, fun ho => by subst ho; rfl⟩

/-- C4 witness: on the happy-path environment the produced payload has
the joined-then-trimmed text and the language taken from the explicit
attribute. -/
theorem C4_witness :
    pOk.text = pyStrip (joinSpace (segsOk.map Segment.text)) ∧
    pOk.segments = segsOk ∧
    pOk.language = "es" :=
  ⟨(C4_result_assembly envOk segsOk (.withLang "es") pOk rfl rfl).1,
   (C4_result_assembly envOk segsOk (.withLang "es") pOk rfl rfl).2.1,
   (C4_result_assembly envOk segsOk (.withLang "es") pOk rfl rfl).2.2.1 "es" rfl⟩

/-- C4 counterexample: with segment texts `" a "` and `"b"` the code
produces `"a  b"` (join first, then trim the whole), while the claim's
reading — trim each segment, then join with single spaces — gives
`"a b"`; the two differ. -/
theorem C4_counterexample :
    (runTranscribe envOk).payload.map Payload.text = some "a  b" ∧
    claimedTrimJoin segsOk = "a b" ∧
    (runTranscribe envOk).payload.map Payload.text ≠
      some (claimedTrimJoin segsOk) := by
  refine ⟨by decide, by decide, by decide⟩

/-- No piece produced by `splitOnSlash` contains the separator. -/
theorem splitOnSlash_no_slash :
    ∀ (cs : List Char), ∀ p ∈ splitOnSlash cs, '/' ∉ p := by
  intro cs
  induction cs with
  | nil =>
    intro p hp
    simp [splitOnSlash] at hp
    subst hp; simp
  | cons c rest ih =>
    intro p hp
    simp only [splitOnSlash] at hp
    cases hsp : splitOnSlash rest with
    | nil =>
      rw [hsp] at hp
      simp at hp
      subst hp; simp
    | cons q qs =>
      rw [hsp] at hp
      dsimp only at hp
      by_cases hc : c = '/'
      · rw [if_pos hc] at hp
        cases hp with
        | head => simp
        | tail _ hp => exact ih p (by rw [hsp]; exact hp)
      · rw [if_neg hc] at hp
        cases hp with
        | head =>
          intro hm
          cases hm with
          | head => exact hc rfl
          | tail _ hm =>
            exact ih q (by rw [hsp]; exact List.mem_cons_self q qs) hm
        | tail _ hp => exact ih p (by rw [hsp]; exact List.mem_cons_of_mem q hp)

/-- The name computed by `pathName` never contains a path separator. -/
theorem pathName_no_slash (p : String) : '/' ∉ (pathName p).data := by
  show '/' ∉ ((splitOnSlash p.data).filter
      (fun q => decide (q ≠ [] ∧ q ≠ ['.']))).getLast?.getD []
  cases hlast : ((splitOnSlash p.data).filter
      (fun q => decide (q ≠ [] ∧ q ≠ ['.']))).getLast? with
  | none => simp
  | some q =>
    exact splitOnSlash_no_slash p.data q
      (List.mem_filter.mp (List.mem_of_mem_getLast? hlast)).1

/-- C10 (amended): only the basename (a separator-free name) of the
declared filename is used, a missing or empty declared filename becomes
`"uploaded"`, whose extension `""` is not in the allowed set, so every
admitted request that also passes the model-readiness gate with a
missing or empty filename is rejected 400 before a single byte is
ingested. -/
theorem C10_default_filename_rejected (env : Env) :
    effectiveFilename none = "uploaded" ∧
    effectiveFilename (some "") = "uploaded" ∧
    (∀ s : String, '/' ∉ (effectiveFilename (some s)).data) ∧
    splitextExt "uploaded" = "" ∧
    ALLOWED_SUFFIXES.contains "" = false ∧
    (0 < env.semAvailable → env.modelReady = true →
      (env.filename0 = none ∨ env.filename0 = some "") →
      (runTranscribe env).status = 400 ∧
      (runTranscribe env).ingestStarted = false ∧
      (runTranscribe env).bytesWritten = 0) := by
  refine ⟨rfl, rfl, ?_, rfl, rfl, ?_⟩
  · intro s
    exact pathName_no_slash _
  · intro h1 h2 h3
    have hf : effectiveFilename env.filename0 = "uploaded" := by
      rcases h3 with h | h <;> rw [h] <;> rfl
    have hbody : ∀ ct chunks m ff mr,
        transcribeBody true true "uploaded" ct chunks m ff mr =
          httpError 400 "Formato de audio no soportado" false 0 0 :=
      fun _ _ _ _ _ => rfl
    have ha : decide (0 < env.semAvailable) = true := decide_eq_true h1
    simp [runTranscribe, hf, h2, ha, hbody, httpError]

/-- C10 witness: an admitted request with a ready model and no declared
filename is rejected 400 with nothing ingested. -/
theorem C10_witness :
    (runTranscribe envNoFilename).status = 400 ∧
    (runTranscribe envNoFilename).ingestStarted = false ∧
    (runTranscribe envNoFilename).bytesWritten = 0 :=
  (C10_default_filename_rejected envNoFilename).2.2.2.2.2
    (by decide) rfl (Or.inl rfl)

/-- C10 counterexample: an *admitted* request with a missing filename is
not always answered 400 — when the model is not ready the request is
rejected 503 by the earlier readiness gate. -/
theorem C10_counterexample :
    envNotReadyNoFilename.filename0 = none ∧
    (runTranscribe envNotReadyNoFilename).acquired = true ∧
    (runTranscribe envNotReadyNoFilename).status = 503 ∧
    (runTranscribe envNotReadyNoFilename).status ≠ 400 := by
  refine ⟨rfl, by decide, by decide, by decide⟩

/-- The clamp `safe_limit = max(1, min(limit, 100))` is idempotent, so
the reader behaves on any limit as it does on the clamped limit. -/
theorem read_recent_clamp {J : Type} (enabled : Bool)
    (parse : String → Option J) (store : List LogRow) (limit : Int) :
    read_recent_transcribe_logs enabled parse store limit =
      read_recent_transcribe_logs enabled parse store (max 1 (min limit 100)) := by
  unfold read_recent_transcribe_logs
  have h : max 1 (min (max 1 (min limit 100)) 100) = max 1 (min limit 100) := by
    omega
  rw [h]

/-- With ids ascending in the store, the reader's output ids are
strictly descending: newest first. -/
theorem read_recent_newest_first {J : Type} (enabled : Bool)
    (parse : String → Option J) (store : List LogRow) (limit : Int)
    (hsorted : (store.map LogRow.id).Pairwise (· < ·)) :
    ((read_recent_transcribe_logs enabled parse store limit).map
      LogOut.id).Pairwise (· > ·) := by
  unfold read_recent_transcribe_logs
  split
  · simp
  · rw [List.map_map]
    have hcomp : (LogOut.id (J := J) ∘ rowToOut parse) = LogRow.id := rfl
    rw [hcomp]
    have h1 : (store.reverse.map LogRow.id).Pairwise (· > ·) := by
      rw [List.map_reverse]
      rw [List.pairwise_reverse]
      exact hsorted
    exact h1.sublist ((List.take_sublist _ _).map LogRow.id)

/-- C5 (amended): `GET /transcribe/logs` defaults its limit to 10 when
the query parameter is absent; an in-range limit (1–100) is answered
200 with `{enabled, count, logs}` while an out-of-range one is rejected
by the declared query validation (422) rather than clamped at the HTTP
layer; the internal reader clamps its own limit argument to [1, 100],
returns entries newest first, and re-parses each stored response JSON
into structured form when it parses, returning the raw stored string
when it does not and nothing when it is empty. -/
theorem C5_logs_endpoint {J : Type} (enabled : Bool)
    (parse : String → Option J) (store : List LogRow)
    (r : LogRow) :
    (transcribe_logs enabled parse store none =
      transcribe_logs enabled parse store (some 10)) ∧
    (∀ n : Int, 1 ≤ n → n ≤ 100 →
      transcribe_logs enabled parse store (some n) =
        (200, some { enabled := enabled,
                     count := (read_recent_transcribe_logs enabled parse store n).length,
                     logs := read_recent_transcribe_logs enabled parse store n })) ∧
    (∀ n : Int, n < 1 ∨ 100 < n →
      transcribe_logs enabled parse store (some n) = (422, none)) ∧
    (∀ n : Int, read_recent_transcribe_logs enabled parse store n =
      read_recent_transcribe_logs enabled parse store (max 1 (min n 100))) ∧
    ((store.map LogRow.id).Pairwise (· < ·) →
      ∀ n : Int, ((read_recent_transcribe_logs enabled parse store n).map
        LogOut.id).Pairwise (· > ·)) ∧
    (r.response_json = "" → (rowToOut parse r).response = none) ∧
    (∀ v, r.response_json ≠ "" → parse r.response_json = some v →
      (rowToOut parse r).response = some (Sum.inl v)) ∧
    (r.response_json ≠ "" → parse r.response_json = none →
      (rowToOut parse r).response = some (Sum.inr r.response_json)) := by
  refine ⟨rfl, ?_, ?_, ?_, ?_, ?_, ?_, ?_⟩
  · intro n h1 h2
    unfold transcribe_logs
    simp only [Option.getD_some]
    rw [if_neg (by omega)]
  · intro n h
    unfold transcribe_logs
    simp only [Option.getD_some]
    rw [if_pos (by omega)]
  · intro n
    exact read_recent_clamp enabled parse store n
  · intro hsorted n
    exact read_recent_newest_first enabled parse store n hsorted
  · intro h
    simp [rowToOut, h]
  · intro v h hv
    simp [rowToOut, h, hv]
  · intro h hv
    simp [rowToOut, h, hv]

/-- C5 witness: a concrete store with ids 1 and 2 — limit 0 is rejected
422, the read order is newest first, and a parsing row is returned
structured. -/
theorem C5_witness :
    transcribe_logs true parseW [rowW1, rowW2] (some 0) = (422, none) ∧
    ((read_recent_transcribe_logs true parseW [rowW1, rowW2] 3).map
      LogOut.id).Pairwise (· > ·) ∧
    (rowToOut parseW rowW1).response = some (Sum.inl ()) :=
  ⟨(C5_logs_endpoint true parseW [rowW1, rowW2] rowW1).2.2.1 0
     (Or.inl (by decide)),
   (C5_logs_endpoint true parseW [rowW1, rowW2] rowW1).2.2.2.2.1
     (by decide) 3,
   (C5_logs_endpoint true parseW [rowW1, rowW2] rowW1).2.2.2.2.2.2.1 ()
     (by decide) (by decide)⟩

/-- C5 counterexample: the claim promises a clamped 200 response for
*every* integer `N`, but `limit=0` is outside the declared
`ge=1, le=100` bounds and is rejected by request validation with 422,
not 200. -/
theorem C5_counterexample :
    (transcribe_logs true (fun _ : String => (none : Option Unit)) []
      (some 0)).1 = 422 ∧
    (transcribe_logs true (fun _ : String => (none : Option Unit)) []
      (some 0)).1 ≠ 200 := by
  constructor
  · rfl
  · decide

end STT
